import Mathlib

/-!
Verification of `mwaa/logging/config.py`: a module that builds the Airflow
logging configuration dictionary from `MWAA__LOGGING__*` environment
variables.

The Python module mutates a global nested dictionary `LOGGING_CONFIG`
(initialised from the framework's `DEFAULT_LOGGING_CONFIG`).  We embed the
state as an explicit `LoggingConfig` value threaded through the setup
functions; Python dictionaries become association lists with an in-place
replacing insert, matching `d[k] = v` semantics (replace keeps the key's
position, a new key is appended).  `LOGGING_CONFIG["loggers"]["airflow.task"]`
raises `KeyError` when the key is missing, so the task setup function returns
`Except`.
-/

namespace Mwaa

/-- The process environment: `os.environ.get` is lookup in a partial map. -/
abbrev Env := String → Option String

/-- Values stored in the innermost dictionaries of the logging configuration:
strings, booleans, and lists of strings (handler/filter name lists). -/
inductive PyValue where
  | s (v : String)
  | b (v : Bool)
  | strs (v : List String)
deriving DecidableEq

/-- An innermost Python dictionary (one handler or logger entry). -/
abbrev PyDict := List (String × PyValue)

/-- Looks up a key in an association list, like Python `d[k]` / `d.get(k)`. -/
def findVal {α : Type} : List (String × α) → String → Option α
  | [], _ => none
  | (k, v) :: rest, key => if k = key then some v else findVal rest key

/-- Python `d[k] = v`: replace in place if the key exists (keeping its
position), otherwise append the new binding at the end. -/
def insertVal {α : Type} : List (String × α) → String → α → List (String × α)
  | [], key, v => [(key, v)]
  | (k, w) :: rest, key, v =>
      if k = key then (key, v) :: rest else (k, w) :: insertVal rest key v

/-- Python `d.update(upd)`: insert every binding of `upd` into `d`. -/
def dictUpdate (d upd : PyDict) : PyDict :=
  upd.foldl (fun acc kv => insertVal acc kv.1 kv.2) d

/-- The two sub-dictionaries of `LOGGING_CONFIG` that this module touches.
The remaining top-level keys of the dictionary (`version`, `formatters`,
`filters`, ...) are never read or written by the module and are omitted. -/
structure LoggingConfig where
  handlers : List (String × PyDict)
  loggers : List (String × PyDict)
deriving DecidableEq

/-- Constants imported from the host framework and the handler classes
defined elsewhere in the package; all external to this file's module.
`base_log_folder` stands for `str(os.path.expanduser(BASE_LOG_FOLDER))`,
`dag_processor_manager_log_name` for
`os.path.basename(DAG_PROCESSOR_MANAGER_LOG_LOCATION)`, and
`default_config` for the `handlers`/`loggers` parts of
`DEFAULT_LOGGING_CONFIG`, the starting value of `LOGGING_CONFIG`. -/
structure FrameworkDefaults where
  default_config : LoggingConfig
  base_log_folder : String
  dag_processor_manager_log_name : String
  processor_filename_template : String
deriving DecidableEq

/-- `_qualified_name` applied to a class of `mwaa.logging.cloudwatch_handlers`:
the module path of the class followed by its qualified name. -/
def qualified_name (cls : String) : String :=
  "mwaa.logging.cloudwatch_handlers" ++ "." ++ cls

/-- Python `str.upper`, character-wise ASCII upper-casing. -/
def pyUpper (s : String) : String := ⟨s.data.map Char.toUpper⟩

/-- Python `str.lower`, character-wise ASCII lower-casing. -/
def pyLower (s : String) : String := ⟨s.data.map Char.toLower⟩

/-- The environment variable naming the log group ARN of a source,
`f"MWAA__LOGGING__AIRFLOW_{source.upper()}_LOG_GROUP_ARN"`. -/
def arnKey (source : String) : String :=
  "MWAA__LOGGING__AIRFLOW_" ++ pyUpper source ++ "_LOG_GROUP_ARN"

/-- The environment variable naming the log level of a source. -/
def levelKey (source : String) : String :=
  "MWAA__LOGGING__AIRFLOW_" ++ pyUpper source ++ "_LOG_LEVEL"

/-- The environment variable enabling logging of a source. -/
def enabledKey (source : String) : String :=
  "MWAA__LOGGING__AIRFLOW_" ++ pyUpper source ++ "_LOGS_ENABLED"

/-- `_get_mwaa_logging_env_vars(source)`: reads the ARN (no default), the
level (defaulting to `logging.getLevelName(logging.INFO)`, i.e. `"INFO"`) and
the enablement string (defaulting to `"false"`), and compares the latter
case-insensitively with `"true"`. -/
def get_mwaa_logging_env_vars (env : Env) (source : String) :
    Option String × String × Bool :=
  let log_group_arn := env (arnKey source)
  let log_level := (env (levelKey source)).getD "INFO"
  let logging_enabled := (env (enabledKey source)).getD "false"
  (log_group_arn, log_level, pyLower logging_enabled == "true")

/-- The dictionary stored under `LOGGING_CONFIG["handlers"]["task"]` by
`_configure_task_logging`. -/
def task_handler_entry (fw : FrameworkDefaults) (log_group_arn : String)
    (logging_enabled : Bool) : PyDict :=
  [("class", PyValue.s (qualified_name "TaskLogHandler")),
   ("formatter", PyValue.s "airflow"),
   ("filters", PyValue.strs ["mask_secrets"]),
   ("base_log_folder", PyValue.s fw.base_log_folder),
   ("log_group_arn", PyValue.s log_group_arn),
   ("enabled", PyValue.b logging_enabled)]

/-- `_configure_task_logging()`: when the task log group ARN is set, replace
the `task` handler with the CloudWatch one and update the level of the
pre-existing `airflow.task` logger (a `KeyError` if that logger is absent). -/
def configure_task_logging (fw : FrameworkDefaults) (env : Env)
    (cfg : LoggingConfig) : Except String LoggingConfig :=
  match get_mwaa_logging_env_vars env "task" with
  | (none, _, _) => .ok cfg
  | (some log_group_arn, log_level, logging_enabled) =>
    let handlers := insertVal cfg.handlers "task"
      (task_handler_entry fw log_group_arn logging_enabled)
    match findVal cfg.loggers "airflow.task" with
    | none => .error "KeyError: airflow.task"
    | some d =>
      .ok { handlers := handlers,
            loggers := insertVal cfg.loggers "airflow.task"
              (dictUpdate d [("level", PyValue.s log_level)]) }

/-- The dictionary stored under `handlers["processor_manager"]` by
`_configure_dag_processing_logging`. -/
def processor_manager_handler_entry (fw : FrameworkDefaults)
    (log_group_arn : String) (logging_enabled : Bool) : PyDict :=
  [("class", PyValue.s (qualified_name "DagProcessorManagerLogHandler")),
   ("formatter", PyValue.s "airflow"),
   ("log_group_arn", PyValue.s log_group_arn),
   ("stream_name", PyValue.s fw.dag_processor_manager_log_name),
   ("enabled", PyValue.b logging_enabled)]

/-- The dictionary stored under `loggers["airflow.processor_manager"]`. -/
def processor_manager_logger_entry (log_level : String) : PyDict :=
  [("handlers", PyValue.strs ["processor_manager"]),
   ("level", PyValue.s log_level),
   ("propagate", PyValue.b false)]

/-- The dictionary stored under `handlers["processor"]` by
`_configure_dag_processing_logging`. -/
def processor_handler_entry (fw : FrameworkDefaults)
    (log_group_arn : String) (logging_enabled : Bool) : PyDict :=
  [("class", PyValue.s (qualified_name "DagProcessingLogHandler")),
   ("formatter", PyValue.s "airflow"),
   ("log_group_arn", PyValue.s log_group_arn),
   ("stream_name_template", PyValue.s fw.processor_filename_template),
   ("enabled", PyValue.b logging_enabled)]

/-- The dictionary stored under `loggers["airflow.processor"]`. -/
def processor_logger_entry (log_level : String) : PyDict :=
  [("handlers", PyValue.strs ["processor"]),
   ("level", PyValue.s log_level),
   ("propagate", PyValue.b false)]

/-- `_configure_dag_processing_logging()`: when the dag_processing log group
ARN is set, add the `processor_manager` and `processor` CloudWatch handlers
and their loggers, all parameterised by the same environment values. -/
def configure_dag_processing_logging (fw : FrameworkDefaults) (env : Env)
    (cfg : LoggingConfig) : LoggingConfig :=
  match get_mwaa_logging_env_vars env "dag_processing" with
  | (none, _, _) => cfg
  | (some log_group_arn, log_level, logging_enabled) =>
    let handlers := insertVal cfg.handlers "processor_manager"
      (processor_manager_handler_entry fw log_group_arn logging_enabled)
    let loggers := insertVal cfg.loggers "airflow.processor_manager"
      (processor_manager_logger_entry log_level)
    let handlers := insertVal handlers "processor"
      (processor_handler_entry fw log_group_arn logging_enabled)
    let loggers := insertVal loggers "airflow.processor"
      (processor_logger_entry log_level)
    { handlers := handlers, loggers := loggers }

/-- The dictionary stored under `handlers[f"mwaa_{subprocess_name}"]` by
`_configure_subprocesses_logging`. -/
def subprocess_handler_entry (subprocess_name : String)
    (log_group_arn : String) (logging_enabled : Bool) : PyDict :=
  [("class", PyValue.s (qualified_name "SubprocessLogHandler")),
   ("formatter", PyValue.s "airflow"),
   ("filters", PyValue.strs ["mask_secrets"]),
   ("log_group_arn", PyValue.s log_group_arn),
   ("stream_name_prefix", PyValue.s subprocess_name),
   ("subprocess_name", PyValue.s subprocess_name),
   ("enabled", PyValue.b logging_enabled)]

/-- The dictionary stored under `loggers[f"mwaa.{subprocess_name}"]`. -/
def subprocess_logger_entry (subprocess_name : String) (log_level : String) :
    PyDict :=
  [("handlers", PyValue.strs ["mwaa_" ++ subprocess_name]),
   ("level", PyValue.s log_level),
   ("propagate", PyValue.b false)]

/-- `_configure_subprocesses_logging(subprocess_name, log_group_arn,
log_level, logging_enabled)`: when the ARN argument is set, add the
`mwaa_<name>` CloudWatch handler and the `mwaa.<name>` logger. -/
def configure_subprocesses_logging
    (subprocess_name : String) (args : Option String × String × Bool)
    (cfg : LoggingConfig) : LoggingConfig :=
  let handler_name := "mwaa_" ++ subprocess_name
  let logger_name := "mwaa." ++ subprocess_name
  match args with
  | (none, _, _) => cfg
  | (some log_group_arn, log_level, logging_enabled) =>
    { handlers := insertVal cfg.handlers handler_name
        (subprocess_handler_entry subprocess_name log_group_arn
          logging_enabled),
      loggers := insertVal cfg.loggers logger_name
        (subprocess_logger_entry subprocess_name log_level) }

/-- `_configure()` run at module load on `LOGGING_CONFIG` (initialised as
`{**DEFAULT_LOGGING_CONFIG}`): task logging, then DAG-processing logging,
then for each of worker, scheduler, webserver the component and its
`_requirements` variant, both receiving the environment values of the
component itself. -/
def configure (fw : FrameworkDefaults) (env : Env) :
    Except String LoggingConfig :=
  match configure_task_logging fw env fw.default_config with
  | .error e => .error e
  | .ok cfg0 =>
    let cfg1 := configure_dag_processing_logging fw env cfg0
    let cfg2 := ["worker", "scheduler", "webserver"].foldl
      (fun cfg comp =>
        let args := get_mwaa_logging_env_vars env comp
        let cfg := configure_subprocesses_logging comp args cfg
        configure_subprocesses_logging (comp ++ "_requirements") args cfg)
      cfg1
    .ok cfg2

/-- Modelled from the spec: `DEFAULT_LOGGING_CONFIG` and the path constants
are imported from the host orchestration framework, which the spec places
out of scope ("the surrounding host platform ... is external and out of
scope"); only its consumption as the starting mapping is recorded.  The
entries below follow the framework's documented default configuration: file
and console handlers `console`, `task`, `processor`, `processor_to_stdout`,
and loggers `airflow.processor`, `airflow.task`, `flask_appbuilder`, with
`airflow.task` carrying an attached-handlers list, a level and a propagation
flag. -/
def airflow_defaults : FrameworkDefaults :=
  { default_config :=
      { handlers :=
          [("console",
            [("class", PyValue.s "airflow.utils.log.logging_mixin.RedirectStdHandler"),
             ("formatter", PyValue.s "airflow"),
             ("stream", PyValue.s "sys.stdout"),
             ("filters", PyValue.strs ["mask_secrets"])]),
           ("task",
            [("class", PyValue.s "airflow.utils.log.file_task_handler.FileTaskHandler"),
             ("formatter", PyValue.s "airflow"),
             ("base_log_folder", PyValue.s "/usr/local/airflow/logs"),
             ("filters", PyValue.strs ["mask_secrets"])]),
           ("processor",
            [("class", PyValue.s "airflow.utils.log.file_processor_handler.FileProcessorHandler"),
             ("formatter", PyValue.s "airflow"),
             ("base_log_folder", PyValue.s "/usr/local/airflow/logs/dag_processor_manager"),
             ("filters", PyValue.strs ["mask_secrets"])]),
           ("processor_to_stdout",
            [("class", PyValue.s "airflow.utils.log.logging_mixin.RedirectStdHandler"),
             ("formatter", PyValue.s "source_processor"),
             ("stream", PyValue.s "sys.stdout"),
             ("filters", PyValue.strs ["mask_secrets"])])],
        loggers :=
          [("airflow.processor",
            [("handlers", PyValue.strs ["processor"]),
             ("level", PyValue.s "INFO"),
             ("propagate", PyValue.b false)]),
           ("airflow.task",
            [("handlers", PyValue.strs ["task"]),
             ("level", PyValue.s "INFO"),
             ("propagate", PyValue.b true),
             ("filters", PyValue.strs ["mask_secrets"])]),
           ("flask_appbuilder",
            [("handlers", PyValue.strs ["console"]),
             ("level", PyValue.s "WARNING"),
             ("propagate", PyValue.b true)])] },
    base_log_folder := "/usr/local/airflow/logs",
    dag_processor_manager_log_name := "dag_processor_manager.log",
    processor_filename_template := "\x7b\x7b filename \x7d\x7d.log" }

/-- The level value read for a source: second component of
`_get_mwaa_logging_env_vars`. -/
def envLevel (env : Env) (source : String) : String :=
  (get_mwaa_logging_env_vars env source).2.1

/-- The enablement decision for a source: third component of
`_get_mwaa_logging_env_vars`. -/
def envEnabled (env : Env) (source : String) : Bool :=
  (get_mwaa_logging_env_vars env source).2.2

/-- A concrete environment built from a finite list of bindings. -/
def envOf (l : List (String × String)) : Env :=
  fun k => findVal l k

/-- Concrete environment: every source fully configured. -/
def env_all : Env :=
  envOf
    [("MWAA__LOGGING__AIRFLOW_TASK_LOG_GROUP_ARN", "arn:aws:logs:::task"),
     ("MWAA__LOGGING__AIRFLOW_TASK_LOG_LEVEL", "DEBUG"),
     ("MWAA__LOGGING__AIRFLOW_TASK_LOGS_ENABLED", "True"),
     ("MWAA__LOGGING__AIRFLOW_DAG_PROCESSING_LOG_GROUP_ARN", "arn:aws:logs:::dag"),
     ("MWAA__LOGGING__AIRFLOW_DAG_PROCESSING_LOG_LEVEL", "WARNING"),
     ("MWAA__LOGGING__AIRFLOW_DAG_PROCESSING_LOGS_ENABLED", "true"),
     ("MWAA__LOGGING__AIRFLOW_WORKER_LOG_GROUP_ARN", "arn:aws:logs:::worker"),
     ("MWAA__LOGGING__AIRFLOW_WORKER_LOG_LEVEL", "ERROR"),
     ("MWAA__LOGGING__AIRFLOW_WORKER_LOGS_ENABLED", "TRUE"),
     ("MWAA__LOGGING__AIRFLOW_SCHEDULER_LOG_GROUP_ARN", "arn:aws:logs:::sched"),
     ("MWAA__LOGGING__AIRFLOW_SCHEDULER_LOGS_ENABLED", "false"),
     ("MWAA__LOGGING__AIRFLOW_WEBSERVER_LOG_GROUP_ARN", "arn:aws:logs:::web")]

/-- Concrete environment: nothing configured. -/
def env_empty : Env := envOf []

/-- Concrete environment: only the `worker_requirements` ARN variable set. -/
def env_wreq_only : Env :=
  envOf
    [("MWAA__LOGGING__AIRFLOW_WORKER_REQUIREMENTS_LOG_GROUP_ARN",
      "arn:aws:logs:::wreq")]

/-- Concrete environment: only the dag_processing ARN variable set. -/
def env_dag_only : Env :=
  envOf
    [("MWAA__LOGGING__AIRFLOW_DAG_PROCESSING_LOG_GROUP_ARN",
      "arn:aws:logs:::dag")]

/-- Concrete environment: worker logging configured and enabled, while the
`worker_requirements` enablement variable is absent. -/
def env_worker_enabled : Env :=
  envOf
    [("MWAA__LOGGING__AIRFLOW_WORKER_LOG_GROUP_ARN", "arn:aws:logs:::worker"),
     ("MWAA__LOGGING__AIRFLOW_WORKER_LOGS_ENABLED", "true")]

/-- Variant of `env_all` differing only on variables the module never
reads (the `*_REQUIREMENTS` families and an unrelated name). -/
def env_all_noise : Env :=
  fun k =>
    if k = "MWAA__LOGGING__AIRFLOW_WORKER_REQUIREMENTS_LOG_GROUP_ARN" then
      some "arn:aws:logs:::wreq"
    else if k = "MWAA__LOGGING__AIRFLOW_WEBSERVER_REQUIREMENTS_LOGS_ENABLED" then
      some "true"
    else if k = "SOME_UNRELATED_VARIABLE" then some "noise"
    else env_all k

/-- The environment variables the module reads: the ARN, level and
enablement variables of the five sources passed to
`_get_mwaa_logging_env_vars`. -/
def mwaa_logging_keys : List String :=
  (["task", "dag_processing", "worker", "scheduler", "webserver"]).flatMap
    (fun s => [arnKey s, levelKey s, enabledKey s])

/-- The configuration produced by a successful run of `_configure` on the
modelled framework defaults (the empty configuration is never reached: with
these defaults the task setup cannot raise). -/
def out_of (env : Env) : LoggingConfig :=
  (configure airflow_defaults env).toOption.getD ⟨[], []⟩

theorem findVal_insertVal_self {α : Type} (l : List (String × α)) (k : String)
    (v : α) : findVal (insertVal l k v) k = some v := by
  induction l with
  | nil => simp [insertVal, findVal]
  | cons kv rest ih =>
      obtain ⟨k1, w⟩ := kv
      by_cases h : k1 = k
      · simp [insertVal, findVal, h]
      · simp [insertVal, findVal, h, ih]

theorem findVal_insertVal_ne {α : Type} (l : List (String × α))
    (k key : String) (v : α) (h : key ≠ k) :
    findVal (insertVal l k v) key = findVal l key := by
  induction l with
  | nil => simp [insertVal, findVal, Ne.symm h]
  | cons kv rest ih =>
      obtain ⟨k1, w⟩ := kv
      by_cases h1 : k1 = k
      · subst h1
        simp [insertVal, findVal, Ne.symm h]
      · by_cases h2 : k1 = key
        · simp [insertVal, findVal, h1, h2, h]
        · simp [insertVal, findVal, h1, h2, ih]

theorem configure_task_logging_none (fw : FrameworkDefaults) (env : Env)
    (cfg : LoggingConfig) (hA : env (arnKey "task") = none) :
    configure_task_logging fw env cfg = .ok cfg := by
  simp [configure_task_logging, get_mwaa_logging_env_vars, hA]

theorem configure_task_logging_some (fw : FrameworkDefaults) (env : Env)
    (cfg : LoggingConfig) (arn : String) (d : PyDict)
    (hA : env (arnKey "task") = some arn)
    (hd : findVal cfg.loggers "airflow.task" = some d) :
    configure_task_logging fw env cfg = .ok
      { handlers := insertVal cfg.handlers "task"
          (task_handler_entry fw arn (envEnabled env "task")),
        loggers := insertVal cfg.loggers "airflow.task"
          (dictUpdate d [("level", PyValue.s (envLevel env "task"))]) } := by
  simp [configure_task_logging, get_mwaa_logging_env_vars, envEnabled,
    envLevel, hA, hd]

theorem configure_task_logging_some_inv (fw : FrameworkDefaults) (env : Env)
    (cfg out : LoggingConfig) (arn : String)
    (hA : env (arnKey "task") = some arn)
    (h : configure_task_logging fw env cfg = .ok out) :
    ∃ d, findVal cfg.loggers "airflow.task" = some d ∧
      out = { handlers := insertVal cfg.handlers "task"
                (task_handler_entry fw arn (envEnabled env "task")),
              loggers := insertVal cfg.loggers "airflow.task"
                (dictUpdate d [("level", PyValue.s (envLevel env "task"))]) } := by
  rcases hd : findVal cfg.loggers "airflow.task" with _ | d
  · exfalso
    simp [configure_task_logging, get_mwaa_logging_env_vars, hA, hd] at h
  · refine ⟨d, rfl, ?_⟩
    rw [configure_task_logging_some fw env cfg arn d hA hd] at h
    exact (Except.ok.inj h).symm

theorem configure_task_logging_handlers_frame (fw : FrameworkDefaults)
    (env : Env) (cfg out : LoggingConfig) (k : String)
    (hk : k ≠ "task") (h : configure_task_logging fw env cfg = .ok out) :
    findVal out.handlers k = findVal cfg.handlers k := by
  rcases hA : env (arnKey "task") with _ | arn
  · rw [configure_task_logging_none fw env cfg hA] at h
    rw [Except.ok.inj h]
  · obtain ⟨d, hd, rfl⟩ := configure_task_logging_some_inv fw env cfg out arn hA h
    exact findVal_insertVal_ne _ _ _ _ hk

theorem configure_task_logging_loggers_frame (fw : FrameworkDefaults)
    (env : Env) (cfg out : LoggingConfig) (k : String)
    (hk : k ≠ "airflow.task") (h : configure_task_logging fw env cfg = .ok out) :
    findVal out.loggers k = findVal cfg.loggers k := by
  rcases hA : env (arnKey "task") with _ | arn
  · rw [configure_task_logging_none fw env cfg hA] at h
    rw [Except.ok.inj h]
  · obtain ⟨d, hd, rfl⟩ := configure_task_logging_some_inv fw env cfg out arn hA h
    exact findVal_insertVal_ne _ _ _ _ hk

theorem configure_dag_processing_logging_none (fw : FrameworkDefaults)
    (env : Env) (cfg : LoggingConfig)
    (hA : env (arnKey "dag_processing") = none) :
    configure_dag_processing_logging fw env cfg = cfg := by
  simp [configure_dag_processing_logging, get_mwaa_logging_env_vars, hA]

theorem configure_dag_processing_logging_some (fw : FrameworkDefaults)
    (env : Env) (cfg : LoggingConfig) (arn : String)
    (hA : env (arnKey "dag_processing") = some arn) :
    configure_dag_processing_logging fw env cfg =
      { handlers := insertVal
          (insertVal cfg.handlers "processor_manager"
            (processor_manager_handler_entry fw arn
              (envEnabled env "dag_processing")))
          "processor"
          (processor_handler_entry fw arn (envEnabled env "dag_processing")),
        loggers := insertVal
          (insertVal cfg.loggers "airflow.processor_manager"
            (processor_manager_logger_entry (envLevel env "dag_processing")))
          "airflow.processor"
          (processor_logger_entry (envLevel env "dag_processing")) } := by
  simp [configure_dag_processing_logging, get_mwaa_logging_env_vars,
    envEnabled, envLevel, hA]

theorem configure_dag_processing_logging_handlers_frame
    (fw : FrameworkDefaults) (env : Env) (cfg : LoggingConfig) (k : String)
    (h1 : k ≠ "processor_manager") (h2 : k ≠ "processor") :
    findVal (configure_dag_processing_logging fw env cfg).handlers k =
      findVal cfg.handlers k := by
  rcases hA : env (arnKey "dag_processing") with _ | arn
  · rw [configure_dag_processing_logging_none fw env cfg hA]
  · rw [configure_dag_processing_logging_some fw env cfg arn hA]
    exact (findVal_insertVal_ne _ _ _ _ h2).trans
      (findVal_insertVal_ne _ _ _ _ h1)

theorem configure_dag_processing_logging_loggers_frame
    (fw : FrameworkDefaults) (env : Env) (cfg : LoggingConfig) (k : String)
    (h1 : k ≠ "airflow.processor_manager") (h2 : k ≠ "airflow.processor") :
    findVal (configure_dag_processing_logging fw env cfg).loggers k =
      findVal cfg.loggers k := by
  rcases hA : env (arnKey "dag_processing") with _ | arn
  · rw [configure_dag_processing_logging_none fw env cfg hA]
  · rw [configure_dag_processing_logging_some fw env cfg arn hA]
    exact (findVal_insertVal_ne _ _ _ _ h2).trans
      (findVal_insertVal_ne _ _ _ _ h1)

theorem configure_subprocesses_logging_none (subprocess_name : String)
    (log_level : String) (logging_enabled : Bool) (cfg : LoggingConfig) :
    configure_subprocesses_logging subprocess_name
      (none, log_level, logging_enabled) cfg = cfg := rfl

theorem configure_subprocesses_logging_some (subprocess_name : String)
    (arn log_level : String) (logging_enabled : Bool) (cfg : LoggingConfig) :
    configure_subprocesses_logging subprocess_name
      (some arn, log_level, logging_enabled) cfg =
      { handlers := insertVal cfg.handlers ("mwaa_" ++ subprocess_name)
          (subprocess_handler_entry subprocess_name arn logging_enabled),
        loggers := insertVal cfg.loggers ("mwaa." ++ subprocess_name)
          (subprocess_logger_entry subprocess_name log_level) } := rfl

theorem configure_subprocesses_logging_handlers_frame
    (subprocess_name : String) (args : Option String × String × Bool)
    (cfg : LoggingConfig) (k : String) (hk : k ≠ "mwaa_" ++ subprocess_name) :
    findVal (configure_subprocesses_logging subprocess_name args cfg).handlers
      k = findVal cfg.handlers k := by
  obtain ⟨arn, lvl, en⟩ := args
  cases arn with
  | none => rfl
  | some a => exact findVal_insertVal_ne _ _ _ _ hk

theorem configure_subprocesses_logging_loggers_frame
    (subprocess_name : String) (args : Option String × String × Bool)
    (cfg : LoggingConfig) (k : String) (hk : k ≠ "mwaa." ++ subprocess_name) :
    findVal (configure_subprocesses_logging subprocess_name args cfg).loggers
      k = findVal cfg.loggers k := by
  obtain ⟨arn, lvl, en⟩ := args
  cases arn with
  | none => rfl
  | some a => exact findVal_insertVal_ne _ _ _ _ hk

theorem configure_eq (fw : FrameworkDefaults) (env : Env) :
    configure fw env =
      match configure_task_logging fw env fw.default_config with
      | .error e => .error e
      | .ok cfg0 =>
        .ok (configure_subprocesses_logging "webserver_requirements"
          (get_mwaa_logging_env_vars env "webserver")
          (configure_subprocesses_logging "webserver"
            (get_mwaa_logging_env_vars env "webserver")
            (configure_subprocesses_logging "scheduler_requirements"
              (get_mwaa_logging_env_vars env "scheduler")
              (configure_subprocesses_logging "scheduler"
                (get_mwaa_logging_env_vars env "scheduler")
                (configure_subprocesses_logging "worker_requirements"
                  (get_mwaa_logging_env_vars env "worker")
                  (configure_subprocesses_logging "worker"
                    (get_mwaa_logging_env_vars env "worker")
                    (configure_dag_processing_logging fw env cfg0))))))) := by
  unfold configure
  cases configure_task_logging fw env fw.default_config <;> rfl

theorem configure_cases (fw : FrameworkDefaults) (env : Env)
    (out : LoggingConfig) (h : configure fw env = .ok out) :
    ∃ cfg0, configure_task_logging fw env fw.default_config = .ok cfg0 ∧
      out = configure_subprocesses_logging "webserver_requirements"
        (get_mwaa_logging_env_vars env "webserver")
        (configure_subprocesses_logging "webserver"
          (get_mwaa_logging_env_vars env "webserver")
          (configure_subprocesses_logging "scheduler_requirements"
            (get_mwaa_logging_env_vars env "scheduler")
            (configure_subprocesses_logging "scheduler"
              (get_mwaa_logging_env_vars env "scheduler")
              (configure_subprocesses_logging "worker_requirements"
                (get_mwaa_logging_env_vars env "worker")
                (configure_subprocesses_logging "worker"
                  (get_mwaa_logging_env_vars env "worker")
                  (configure_dag_processing_logging fw env cfg0)))))) := by
  rw [configure_eq] at h
  rcases hc : configure_task_logging fw env fw.default_config with e | cfg0
  · rw [hc] at h
    exact absurd h (by simp)
  · rw [hc] at h
    exact ⟨cfg0, rfl, (Except.ok.inj h).symm⟩

theorem configure_subprocesses_logging_env_none (subprocess_name src : String)
    (env : Env) (cfg : LoggingConfig) (hA : env (arnKey src) = none) :
    configure_subprocesses_logging subprocess_name
      (get_mwaa_logging_env_vars env src) cfg = cfg := by
  simp [configure_subprocesses_logging, get_mwaa_logging_env_vars, hA]

theorem configure_subprocesses_logging_env_some (subprocess_name src : String)
    (env : Env) (cfg : LoggingConfig) (arn : String)
    (hA : env (arnKey src) = some arn) :
    configure_subprocesses_logging subprocess_name
      (get_mwaa_logging_env_vars env src) cfg =
      { handlers := insertVal cfg.handlers ("mwaa_" ++ subprocess_name)
          (subprocess_handler_entry subprocess_name arn (envEnabled env src)),
        loggers := insertVal cfg.loggers ("mwaa." ++ subprocess_name)
          (subprocess_logger_entry subprocess_name (envLevel env src)) } := by
  simp [configure_subprocesses_logging, get_mwaa_logging_env_vars,
    envEnabled, envLevel, hA]

theorem configure_handlers_at_task (fw : FrameworkDefaults) (env : Env)
    (out : LoggingConfig) (h : configure fw env = .ok out) :
    findVal out.handlers "task" =
      match env (arnKey "task") with
      | none => findVal fw.default_config.handlers "task"
      | some arn => some (task_handler_entry fw arn (envEnabled env "task")) := by
  obtain ⟨cfg0, hc0, rfl⟩ := configure_cases fw env out h
  rw [configure_subprocesses_logging_handlers_frame "webserver_requirements" _ _ "task" (by decide),
    configure_subprocesses_logging_handlers_frame "webserver" _ _ "task" (by decide),
    configure_subprocesses_logging_handlers_frame "scheduler_requirements" _ _ "task" (by decide),
    configure_subprocesses_logging_handlers_frame "scheduler" _ _ "task" (by decide),
    configure_subprocesses_logging_handlers_frame "worker_requirements" _ _ "task" (by decide),
    configure_subprocesses_logging_handlers_frame "worker" _ _ "task" (by decide),
    configure_dag_processing_logging_handlers_frame fw env _ "task" (by decide) (by decide)]
  rcases hA : env (arnKey "task") with _ | arn
  · rw [configure_task_logging_none fw env _ hA] at hc0
    rw [Except.ok.inj hc0]
  · obtain ⟨d, hd, rfl⟩ :=
      configure_task_logging_some_inv fw env _ cfg0 arn hA hc0
    exact findVal_insertVal_self _ _ _

theorem configure_handlers_at_processor_manager (fw : FrameworkDefaults)
    (env : Env) (out : LoggingConfig) (h : configure fw env = .ok out) :
    findVal out.handlers "processor_manager" =
      match env (arnKey "dag_processing") with
      | none => findVal fw.default_config.handlers "processor_manager"
      | some arn => some (processor_manager_handler_entry fw arn
          (envEnabled env "dag_processing")) := by
  obtain ⟨cfg0, hc0, rfl⟩ := configure_cases fw env out h
  rw [configure_subprocesses_logging_handlers_frame "webserver_requirements" _ _ _ (by decide),
    configure_subprocesses_logging_handlers_frame "webserver" _ _ _ (by decide),
    configure_subprocesses_logging_handlers_frame "scheduler_requirements" _ _ _ (by decide),
    configure_subprocesses_logging_handlers_frame "scheduler" _ _ _ (by decide),
    configure_subprocesses_logging_handlers_frame "worker_requirements" _ _ _ (by decide),
    configure_subprocesses_logging_handlers_frame "worker" _ _ _ (by decide)]
  rcases hA : env (arnKey "dag_processing") with _ | arn
  · rw [configure_dag_processing_logging_none fw env _ hA]
    exact configure_task_logging_handlers_frame fw env _ cfg0 _ (by decide) hc0
  · rw [configure_dag_processing_logging_some fw env _ arn hA]
    rw [findVal_insertVal_ne _ _ _ _ (by decide)]
    exact findVal_insertVal_self _ _ _

theorem configure_handlers_at_processor (fw : FrameworkDefaults)
    (env : Env) (out : LoggingConfig) (h : configure fw env = .ok out) :
    findVal out.handlers "processor" =
      match env (arnKey "dag_processing") with
      | none => findVal fw.default_config.handlers "processor"
      | some arn => some (processor_handler_entry fw arn
          (envEnabled env "dag_processing")) := by
  obtain ⟨cfg0, hc0, rfl⟩ := configure_cases fw env out h
  rw [configure_subprocesses_logging_handlers_frame "webserver_requirements" _ _ _ (by decide),
    configure_subprocesses_logging_handlers_frame "webserver" _ _ _ (by decide),
    configure_subprocesses_logging_handlers_frame "scheduler_requirements" _ _ _ (by decide),
    configure_subprocesses_logging_handlers_frame "scheduler" _ _ _ (by decide),
    configure_subprocesses_logging_handlers_frame "worker_requirements" _ _ _ (by decide),
    configure_subprocesses_logging_handlers_frame "worker" _ _ _ (by decide)]
  rcases hA : env (arnKey "dag_processing") with _ | arn
  · rw [configure_dag_processing_logging_none fw env _ hA]
    exact configure_task_logging_handlers_frame fw env _ cfg0 _ (by decide) hc0
  · rw [configure_dag_processing_logging_some fw env _ arn hA]
    exact findVal_insertVal_self _ _ _

theorem configure_handlers_at_mwaa_worker (fw : FrameworkDefaults)
    (env : Env) (out : LoggingConfig) (h : configure fw env = .ok out) :
    findVal out.handlers "mwaa_worker" =
      match env (arnKey "worker") with
      | none => findVal fw.default_config.handlers "mwaa_worker"
      | some arn => some (subprocess_handler_entry "worker" arn
          (envEnabled env "worker")) := by
  obtain ⟨cfg0, hc0, rfl⟩ := configure_cases fw env out h
  rw [configure_subprocesses_logging_handlers_frame "webserver_requirements" _ _ _ (by decide),
    configure_subprocesses_logging_handlers_frame "webserver" _ _ _ (by decide),
    configure_subprocesses_logging_handlers_frame "scheduler_requirements" _ _ _ (by decide),
    configure_subprocesses_logging_handlers_frame "scheduler" _ _ _ (by decide)]
  rcases hA : env (arnKey "worker") with _ | arn
  · rw [configure_subprocesses_logging_env_none "worker_requirements" "worker" env _ hA,
      configure_subprocesses_logging_env_none "worker" "worker" env _ hA,
      configure_dag_processing_logging_handlers_frame fw env _ _ (by decide) (by decide)]
    exact configure_task_logging_handlers_frame fw env _ cfg0 _ (by decide) hc0
  · rw [configure_subprocesses_logging_handlers_frame "worker_requirements" _ _ _ (by decide),
      configure_subprocesses_logging_env_some "worker" "worker" env _ arn hA]
    exact findVal_insertVal_self _ _ _

theorem configure_handlers_at_mwaa_worker_requirements (fw : FrameworkDefaults)
    (env : Env) (out : LoggingConfig) (h : configure fw env = .ok out) :
    findVal out.handlers "mwaa_worker_requirements" =
      match env (arnKey "worker") with
      | none => findVal fw.default_config.handlers "mwaa_worker_requirements"
      | some arn => some (subprocess_handler_entry "worker_requirements" arn
          (envEnabled env "worker")) := by
  obtain ⟨cfg0, hc0, rfl⟩ := configure_cases fw env out h
  rw [configure_subprocesses_logging_handlers_frame "webserver_requirements" _ _ _ (by decide),
    configure_subprocesses_logging_handlers_frame "webserver" _ _ _ (by decide),
    configure_subprocesses_logging_handlers_frame "scheduler_requirements" _ _ _ (by decide),
    configure_subprocesses_logging_handlers_frame "scheduler" _ _ _ (by decide)]
  rcases hA : env (arnKey "worker") with _ | arn
  · rw [configure_subprocesses_logging_env_none "worker_requirements" "worker" env _ hA,
      configure_subprocesses_logging_env_none "worker" "worker" env _ hA,
      configure_dag_processing_logging_handlers_frame fw env _ _ (by decide) (by decide)]
    exact configure_task_logging_handlers_frame fw env _ cfg0 _ (by decide) hc0
  · rw [configure_subprocesses_logging_env_some "worker_requirements" "worker" env _ arn hA]
    exact findVal_insertVal_self _ _ _

theorem configure_handlers_at_mwaa_scheduler (fw : FrameworkDefaults)
    (env : Env) (out : LoggingConfig) (h : configure fw env = .ok out) :
    findVal out.handlers "mwaa_scheduler" =
      match env (arnKey "scheduler") with
      | none => findVal fw.default_config.handlers "mwaa_scheduler"
      | some arn => some (subprocess_handler_entry "scheduler" arn
          (envEnabled env "scheduler")) := by
  obtain ⟨cfg0, hc0, rfl⟩ := configure_cases fw env out h
  rw [configure_subprocesses_logging_handlers_frame "webserver_requirements" _ _ _ (by decide),
    configure_subprocesses_logging_handlers_frame "webserver" _ _ _ (by decide)]
  rcases hA : env (arnKey "scheduler") with _ | arn
  · rw [configure_subprocesses_logging_env_none "scheduler_requirements" "scheduler" env _ hA,
      configure_subprocesses_logging_env_none "scheduler" "scheduler" env _ hA,
      configure_subprocesses_logging_handlers_frame "worker_requirements" _ _ _ (by decide),
      configure_subprocesses_logging_handlers_frame "worker" _ _ _ (by decide),
      configure_dag_processing_logging_handlers_frame fw env _ _ (by decide) (by decide)]
    exact configure_task_logging_handlers_frame fw env _ cfg0 _ (by decide) hc0
  · rw [configure_subprocesses_logging_handlers_frame "scheduler_requirements" _ _ _ (by decide),
      configure_subprocesses_logging_env_some "scheduler" "scheduler" env _ arn hA]
    exact findVal_insertVal_self _ _ _

theorem configure_handlers_at_mwaa_scheduler_requirements
    (fw : FrameworkDefaults) (env : Env) (out : LoggingConfig)
    (h : configure fw env = .ok out) :
    findVal out.handlers "mwaa_scheduler_requirements" =
      match env (arnKey "scheduler") with
      | none => findVal fw.default_config.handlers "mwaa_scheduler_requirements"
      | some arn => some (subprocess_handler_entry "scheduler_requirements" arn
          (envEnabled env "scheduler")) := by
  obtain ⟨cfg0, hc0, rfl⟩ := configure_cases fw env out h
  rw [configure_subprocesses_logging_handlers_frame "webserver_requirements" _ _ _ (by decide),
    configure_subprocesses_logging_handlers_frame "webserver" _ _ _ (by decide)]
  rcases hA : env (arnKey "scheduler") with _ | arn
  · rw [configure_subprocesses_logging_env_none "scheduler_requirements" "scheduler" env _ hA,
      configure_subprocesses_logging_env_none "scheduler" "scheduler" env _ hA,
      configure_subprocesses_logging_handlers_frame "worker_requirements" _ _ _ (by decide),
      configure_subprocesses_logging_handlers_frame "worker" _ _ _ (by decide),
      configure_dag_processing_logging_handlers_frame fw env _ _ (by decide) (by decide)]
    exact configure_task_logging_handlers_frame fw env _ cfg0 _ (by decide) hc0
  · rw [configure_subprocesses_logging_env_some "scheduler_requirements" "scheduler" env _ arn hA]
    exact findVal_insertVal_self _ _ _

theorem configure_handlers_at_mwaa_webserver (fw : FrameworkDefaults)
    (env : Env) (out : LoggingConfig) (h : configure fw env = .ok out) :
    findVal out.handlers "mwaa_webserver" =
      match env (arnKey "webserver") with
      | none => findVal fw.default_config.handlers "mwaa_webserver"
      | some arn => some (subprocess_handler_entry "webserver" arn
          (envEnabled env "webserver")) := by
  obtain ⟨cfg0, hc0, rfl⟩ := configure_cases fw env out h
  rcases hA : env (arnKey "webserver") with _ | arn
  · rw [configure_subprocesses_logging_env_none "webserver_requirements" "webserver" env _ hA,
      configure_subprocesses_logging_env_none "webserver" "webserver" env _ hA,
      configure_subprocesses_logging_handlers_frame "scheduler_requirements" _ _ _ (by decide),
      configure_subprocesses_logging_handlers_frame "scheduler" _ _ _ (by decide),
      configure_subprocesses_logging_handlers_frame "worker_requirements" _ _ _ (by decide),
      configure_subprocesses_logging_handlers_frame "worker" _ _ _ (by decide),
      configure_dag_processing_logging_handlers_frame fw env _ _ (by decide) (by decide)]
    exact configure_task_logging_handlers_frame fw env _ cfg0 _ (by decide) hc0
  · rw [configure_subprocesses_logging_handlers_frame "webserver_requirements" _ _ _ (by decide),
      configure_subprocesses_logging_env_some "webserver" "webserver" env _ arn hA]
    exact findVal_insertVal_self _ _ _

theorem configure_handlers_at_mwaa_webserver_requirements
    (fw : FrameworkDefaults) (env : Env) (out : LoggingConfig)
    (h : configure fw env = .ok out) :
    findVal out.handlers "mwaa_webserver_requirements" =
      match env (arnKey "webserver") with
      | none => findVal fw.default_config.handlers "mwaa_webserver_requirements"
      | some arn => some (subprocess_handler_entry "webserver_requirements" arn
          (envEnabled env "webserver")) := by
  obtain ⟨cfg0, hc0, rfl⟩ := configure_cases fw env out h
  rcases hA : env (arnKey "webserver") with _ | arn
  · rw [configure_subprocesses_logging_env_none "webserver_requirements" "webserver" env _ hA,
      configure_subprocesses_logging_env_none "webserver" "webserver" env _ hA,
      configure_subprocesses_logging_handlers_frame "scheduler_requirements" _ _ _ (by decide),
      configure_subprocesses_logging_handlers_frame "scheduler" _ _ _ (by decide),
      configure_subprocesses_logging_handlers_frame "worker_requirements" _ _ _ (by decide),
      configure_subprocesses_logging_handlers_frame "worker" _ _ _ (by decide),
      configure_dag_processing_logging_handlers_frame fw env _ _ (by decide) (by decide)]
    exact configure_task_logging_handlers_frame fw env _ cfg0 _ (by decide) hc0
  · rw [configure_subprocesses_logging_env_some "webserver_requirements" "webserver" env _ arn hA]
    exact findVal_insertVal_self _ _ _

theorem configure_task_logging_congr (fw : FrameworkDefaults) (env1 env2 : Env)
    (h : get_mwaa_logging_env_vars env1 "task" =
      get_mwaa_logging_env_vars env2 "task") (cfg : LoggingConfig) :
    configure_task_logging fw env1 cfg = configure_task_logging fw env2 cfg := by
  unfold configure_task_logging
  rw [h]

theorem configure_dag_processing_logging_congr (fw : FrameworkDefaults)
    (env1 env2 : Env)
    (h : get_mwaa_logging_env_vars env1 "dag_processing" =
      get_mwaa_logging_env_vars env2 "dag_processing") (cfg : LoggingConfig) :
    configure_dag_processing_logging fw env1 cfg =
      configure_dag_processing_logging fw env2 cfg := by
  unfold configure_dag_processing_logging
  rw [h]

theorem configure_loggers_at_airflow_task (fw : FrameworkDefaults) (env : Env)
    (out : LoggingConfig) (h : configure fw env = .ok out) :
    findVal out.loggers "airflow.task" =
      match env (arnKey "task") with
      | none => findVal fw.default_config.loggers "airflow.task"
      | some _ => (findVal fw.default_config.loggers "airflow.task").map
          (fun d => dictUpdate d [("level", PyValue.s (envLevel env "task"))]) := by
  obtain ⟨cfg0, hc0, rfl⟩ := configure_cases fw env out h
  rw [configure_subprocesses_logging_loggers_frame "webserver_requirements" _ _ _ (by decide),
    configure_subprocesses_logging_loggers_frame "webserver" _ _ _ (by decide),
    configure_subprocesses_logging_loggers_frame "scheduler_requirements" _ _ _ (by decide),
    configure_subprocesses_logging_loggers_frame "scheduler" _ _ _ (by decide),
    configure_subprocesses_logging_loggers_frame "worker_requirements" _ _ _ (by decide),
    configure_subprocesses_logging_loggers_frame "worker" _ _ _ (by decide),
    configure_dag_processing_logging_loggers_frame fw env _ _ (by decide) (by decide)]
  rcases hA : env (arnKey "task") with _ | arn
  · rw [configure_task_logging_none fw env _ hA] at hc0
    rw [Except.ok.inj hc0]
  · obtain ⟨d, hd, rfl⟩ :=
      configure_task_logging_some_inv fw env _ cfg0 arn hA hc0
    rw [hd, Option.map_some']
    exact findVal_insertVal_self _ _ _

theorem configure_loggers_at_airflow_processor_manager (fw : FrameworkDefaults)
    (env : Env) (out : LoggingConfig) (h : configure fw env = .ok out) :
    findVal out.loggers "airflow.processor_manager" =
      match env (arnKey "dag_processing") with
      | none => findVal fw.default_config.loggers "airflow.processor_manager"
      | some _ => some (processor_manager_logger_entry
          (envLevel env "dag_processing")) := by
  obtain ⟨cfg0, hc0, rfl⟩ := configure_cases fw env out h
  rw [configure_subprocesses_logging_loggers_frame "webserver_requirements" _ _ _ (by decide),
    configure_subprocesses_logging_loggers_frame "webserver" _ _ _ (by decide),
    configure_subprocesses_logging_loggers_frame "scheduler_requirements" _ _ _ (by decide),
    configure_subprocesses_logging_loggers_frame "scheduler" _ _ _ (by decide),
    configure_subprocesses_logging_loggers_frame "worker_requirements" _ _ _ (by decide),
    configure_subprocesses_logging_loggers_frame "worker" _ _ _ (by decide)]
  rcases hA : env (arnKey "dag_processing") with _ | arn
  · rw [configure_dag_processing_logging_none fw env _ hA]
    exact configure_task_logging_loggers_frame fw env _ cfg0 _ (by decide) hc0
  · rw [configure_dag_processing_logging_some fw env _ arn hA]
    rw [findVal_insertVal_ne _ _ _ _ (by decide)]
    exact findVal_insertVal_self _ _ _

theorem configure_loggers_at_airflow_processor (fw : FrameworkDefaults)
    (env : Env) (out : LoggingConfig) (h : configure fw env = .ok out) :
    findVal out.loggers "airflow.processor" =
      match env (arnKey "dag_processing") with
      | none => findVal fw.default_config.loggers "airflow.processor"
      | some _ => some (processor_logger_entry
          (envLevel env "dag_processing")) := by
  obtain ⟨cfg0, hc0, rfl⟩ := configure_cases fw env out h
  rw [configure_subprocesses_logging_loggers_frame "webserver_requirements" _ _ _ (by decide),
    configure_subprocesses_logging_loggers_frame "webserver" _ _ _ (by decide),
    configure_subprocesses_logging_loggers_frame "scheduler_requirements" _ _ _ (by decide),
    configure_subprocesses_logging_loggers_frame "scheduler" _ _ _ (by decide),
    configure_subprocesses_logging_loggers_frame "worker_requirements" _ _ _ (by decide),
    configure_subprocesses_logging_loggers_frame "worker" _ _ _ (by decide)]
  rcases hA : env (arnKey "dag_processing") with _ | arn
  · rw [configure_dag_processing_logging_none fw env _ hA]
    exact configure_task_logging_loggers_frame fw env _ cfg0 _ (by decide) hc0
  · rw [configure_dag_processing_logging_some fw env _ arn hA]
    exact findVal_insertVal_self _ _ _

theorem configure_loggers_at_mwaa_worker (fw : FrameworkDefaults)
    (env : Env) (out : LoggingConfig) (h : configure fw env = .ok out) :
    findVal out.loggers "mwaa.worker" =
      match env (arnKey "worker") with
      | none => findVal fw.default_config.loggers "mwaa.worker"
      | some _ => some (subprocess_logger_entry "worker"
          (envLevel env "worker")) := by
  obtain ⟨cfg0, hc0, rfl⟩ := configure_cases fw env out h
  rw [configure_subprocesses_logging_loggers_frame "webserver_requirements" _ _ _ (by decide),
    configure_subprocesses_logging_loggers_frame "webserver" _ _ _ (by decide),
    configure_subprocesses_logging_loggers_frame "scheduler_requirements" _ _ _ (by decide),
    configure_subprocesses_logging_loggers_frame "scheduler" _ _ _ (by decide)]
  rcases hA : env (arnKey "worker") with _ | arn
  · rw [configure_subprocesses_logging_env_none "worker_requirements" "worker" env _ hA,
      configure_subprocesses_logging_env_none "worker" "worker" env _ hA,
      configure_dag_processing_logging_loggers_frame fw env _ _ (by decide) (by decide)]
    exact configure_task_logging_loggers_frame fw env _ cfg0 _ (by decide) hc0
  · rw [configure_subprocesses_logging_loggers_frame "worker_requirements" _ _ _ (by decide),
      configure_subprocesses_logging_env_some "worker" "worker" env _ arn hA]
    exact findVal_insertVal_self _ _ _

theorem configure_loggers_at_mwaa_worker_requirements (fw : FrameworkDefaults)
    (env : Env) (out : LoggingConfig) (h : configure fw env = .ok out) :
    findVal out.loggers "mwaa.worker_requirements" =
      match env (arnKey "worker") with
      | none => findVal fw.default_config.loggers "mwaa.worker_requirements"
      | some _ => some (subprocess_logger_entry "worker_requirements"
          (envLevel env "worker")) := by
  obtain ⟨cfg0, hc0, rfl⟩ := configure_cases fw env out h
  rw [configure_subprocesses_logging_loggers_frame "webserver_requirements" _ _ _ (by decide),
    configure_subprocesses_logging_loggers_frame "webserver" _ _ _ (by decide),
    configure_subprocesses_logging_loggers_frame "scheduler_requirements" _ _ _ (by decide),
    configure_subprocesses_logging_loggers_frame "scheduler" _ _ _ (by decide)]
  rcases hA : env (arnKey "worker") with _ | arn
  · rw [configure_subprocesses_logging_env_none "worker_requirements" "worker" env _ hA,
      configure_subprocesses_logging_env_none "worker" "worker" env _ hA,
      configure_dag_processing_logging_loggers_frame fw env _ _ (by decide) (by decide)]
    exact configure_task_logging_loggers_frame fw env _ cfg0 _ (by decide) hc0
  · rw [configure_subprocesses_logging_env_some "worker_requirements" "worker" env _ arn hA]
    exact findVal_insertVal_self _ _ _

theorem configure_loggers_at_mwaa_scheduler (fw : FrameworkDefaults)
    (env : Env) (out : LoggingConfig) (h : configure fw env = .ok out) :
    findVal out.loggers "mwaa.scheduler" =
      match env (arnKey "scheduler") with
      | none => findVal fw.default_config.loggers "mwaa.scheduler"
      | some _ => some (subprocess_logger_entry "scheduler"
          (envLevel env "scheduler")) := by
  obtain ⟨cfg0, hc0, rfl⟩ := configure_cases fw env out h
  rw [configure_subprocesses_logging_loggers_frame "webserver_requirements" _ _ _ (by decide),
    configure_subprocesses_logging_loggers_frame "webserver" _ _ _ (by decide)]
  rcases hA : env (arnKey "scheduler") with _ | arn
  · rw [configure_subprocesses_logging_env_none "scheduler_requirements" "scheduler" env _ hA,
      configure_subprocesses_logging_env_none "scheduler" "scheduler" env _ hA,
      configure_subprocesses_logging_loggers_frame "worker_requirements" _ _ _ (by decide),
      configure_subprocesses_logging_loggers_frame "worker" _ _ _ (by decide),
      configure_dag_processing_logging_loggers_frame fw env _ _ (by decide) (by decide)]
    exact configure_task_logging_loggers_frame fw env _ cfg0 _ (by decide) hc0
  · rw [configure_subprocesses_logging_loggers_frame "scheduler_requirements" _ _ _ (by decide),
      configure_subprocesses_logging_env_some "scheduler" "scheduler" env _ arn hA]
    exact findVal_insertVal_self _ _ _

theorem configure_loggers_at_mwaa_scheduler_requirements
    (fw : FrameworkDefaults) (env : Env) (out : LoggingConfig)
    (h : configure fw env = .ok out) :
    findVal out.loggers "mwaa.scheduler_requirements" =
      match env (arnKey "scheduler") with
      | none => findVal fw.default_config.loggers "mwaa.scheduler_requirements"
      | some _ => some (subprocess_logger_entry "scheduler_requirements"
          (envLevel env "scheduler")) := by
  obtain ⟨cfg0, hc0, rfl⟩ := configure_cases fw env out h
  rw [configure_subprocesses_logging_loggers_frame "webserver_requirements" _ _ _ (by decide),
    configure_subprocesses_logging_loggers_frame "webserver" _ _ _ (by decide)]
  rcases hA : env (arnKey "scheduler") with _ | arn
  · rw [configure_subprocesses_logging_env_none "scheduler_requirements" "scheduler" env _ hA,
      configure_subprocesses_logging_env_none "scheduler" "scheduler" env _ hA,
      configure_subprocesses_logging_loggers_frame "worker_requirements" _ _ _ (by decide),
      configure_subprocesses_logging_loggers_frame "worker" _ _ _ (by decide),
      configure_dag_processing_logging_loggers_frame fw env _ _ (by decide) (by decide)]
    exact configure_task_logging_loggers_frame fw env _ cfg0 _ (by decide) hc0
  · rw [configure_subprocesses_logging_env_some "scheduler_requirements" "scheduler" env _ arn hA]
    exact findVal_insertVal_self _ _ _

theorem configure_loggers_at_mwaa_webserver (fw : FrameworkDefaults)
    (env : Env) (out : LoggingConfig) (h : configure fw env = .ok out) :
    findVal out.loggers "mwaa.webserver" =
      match env (arnKey "webserver") with
      | none => findVal fw.default_config.loggers "mwaa.webserver"
      | some _ => some (subprocess_logger_entry "webserver"
          (envLevel env "webserver")) := by
  obtain ⟨cfg0, hc0, rfl⟩ := configure_cases fw env out h
  rcases hA : env (arnKey "webserver") with _ | arn
  · rw [configure_subprocesses_logging_env_none "webserver_requirements" "webserver" env _ hA,
      configure_subprocesses_logging_env_none "webserver" "webserver" env _ hA,
      configure_subprocesses_logging_loggers_frame "scheduler_requirements" _ _ _ (by decide),
      configure_subprocesses_logging_loggers_frame "scheduler" _ _ _ (by decide),
      configure_subprocesses_logging_loggers_frame "worker_requirements" _ _ _ (by decide),
      configure_subprocesses_logging_loggers_frame "worker" _ _ _ (by decide),
      configure_dag_processing_logging_loggers_frame fw env _ _ (by decide) (by decide)]
    exact configure_task_logging_loggers_frame fw env _ cfg0 _ (by decide) hc0
  · rw [configure_subprocesses_logging_loggers_frame "webserver_requirements" _ _ _ (by decide),
      configure_subprocesses_logging_env_some "webserver" "webserver" env _ arn hA]
    exact findVal_insertVal_self _ _ _

theorem configure_loggers_at_mwaa_webserver_requirements
    (fw : FrameworkDefaults) (env : Env) (out : LoggingConfig)
    (h : configure fw env = .ok out) :
    findVal out.loggers "mwaa.webserver_requirements" =
      match env (arnKey "webserver") with
      | none => findVal fw.default_config.loggers "mwaa.webserver_requirements"
      | some _ => some (subprocess_logger_entry "webserver_requirements"
          (envLevel env "webserver")) := by
  obtain ⟨cfg0, hc0, rfl⟩ := configure_cases fw env out h
  rcases hA : env (arnKey "webserver") with _ | arn
  · rw [configure_subprocesses_logging_env_none "webserver_requirements" "webserver" env _ hA,
      configure_subprocesses_logging_env_none "webserver" "webserver" env _ hA,
      configure_subprocesses_logging_loggers_frame "scheduler_requirements" _ _ _ (by decide),
      configure_subprocesses_logging_loggers_frame "scheduler" _ _ _ (by decide),
      configure_subprocesses_logging_loggers_frame "worker_requirements" _ _ _ (by decide),
      configure_subprocesses_logging_loggers_frame "worker" _ _ _ (by decide),
      configure_dag_processing_logging_loggers_frame fw env _ _ (by decide) (by decide)]
    exact configure_task_logging_loggers_frame fw env _ cfg0 _ (by decide) hc0
  · rw [configure_subprocesses_logging_env_some "webserver_requirements" "webserver" env _ arn hA]
    exact findVal_insertVal_self _ _ _

/-- Claim C1 is false as stated: with only
`MWAA__LOGGING__AIRFLOW_WORKER_REQUIREMENTS_LOG_GROUP_ARN` set, the variable
for the `worker_requirements` source is present, yet `_configure` adds no
`mwaa_worker_requirements` handler and no `mwaa.worker_requirements` logger,
because the loop only consults the parent component's variable. -/
theorem C1_counterexample :
    (env_wreq_only
      "MWAA__LOGGING__AIRFLOW_WORKER_REQUIREMENTS_LOG_GROUP_ARN").isSome
      = true ∧
    configure airflow_defaults env_wreq_only = .ok (out_of env_wreq_only) ∧
    findVal (out_of env_wreq_only).handlers "mwaa_worker_requirements"
      = none ∧
    findVal (out_of env_wreq_only).loggers "mwaa.worker_requirements"
      = none :=
  ⟨rfl, rfl, rfl, rfl⟩

/-- Claim C1 (amended): handler and logger entries for a source are written
if and only if the governing ARN environment variable is present — the
source's own `MWAA__LOGGING__AIRFLOW_<SOURCE>_LOG_GROUP_ARN` for task and
dag_processing, and the parent component's variable for worker, scheduler,
webserver and their `_requirements` variants; when the governing variable is
absent, the mapping at that source's handler and logger names is exactly the
framework default's. -/
theorem C1_log_source_registration (fw : FrameworkDefaults) (env : Env)
    (out : LoggingConfig) (h : configure fw env = .ok out) :
    (findVal out.handlers "task" =
      match env (arnKey "task") with
      | none => findVal fw.default_config.handlers "task"
      | some arn => some (task_handler_entry fw arn (envEnabled env "task"))) ∧
    (findVal out.handlers "processor_manager" =
      match env (arnKey "dag_processing") with
      | none => findVal fw.default_config.handlers "processor_manager"
      | some arn => some (processor_manager_handler_entry fw arn
          (envEnabled env "dag_processing"))) ∧
    (findVal out.handlers "processor" =
      match env (arnKey "dag_processing") with
      | none => findVal fw.default_config.handlers "processor"
      | some arn => some (processor_handler_entry fw arn
          (envEnabled env "dag_processing"))) ∧
    (findVal out.handlers "mwaa_worker" =
      match env (arnKey "worker") with
      | none => findVal fw.default_config.handlers "mwaa_worker"
      | some arn => some (subprocess_handler_entry "worker" arn
          (envEnabled env "worker"))) ∧
    (findVal out.handlers "mwaa_worker_requirements" =
      match env (arnKey "worker") with
      | none => findVal fw.default_config.handlers "mwaa_worker_requirements"
      | some arn => some (subprocess_handler_entry "worker_requirements" arn
          (envEnabled env "worker"))) ∧
    (findVal out.handlers "mwaa_scheduler" =
      match env (arnKey "scheduler") with
      | none => findVal fw.default_config.handlers "mwaa_scheduler"
      | some arn => some (subprocess_handler_entry "scheduler" arn
          (envEnabled env "scheduler"))) ∧
    (findVal out.handlers "mwaa_scheduler_requirements" =
      match env (arnKey "scheduler") with
      | none =>
          findVal fw.default_config.handlers "mwaa_scheduler_requirements"
      | some arn => some (subprocess_handler_entry "scheduler_requirements"
          arn (envEnabled env "scheduler"))) ∧
    (findVal out.handlers "mwaa_webserver" =
      match env (arnKey "webserver") with
      | none => findVal fw.default_config.handlers "mwaa_webserver"
      | some arn => some (subprocess_handler_entry "webserver" arn
          (envEnabled env "webserver"))) ∧
    (findVal out.handlers "mwaa_webserver_requirements" =
      match env (arnKey "webserver") with
      | none =>
          findVal fw.default_config.handlers "mwaa_webserver_requirements"
      | some arn => some (subprocess_handler_entry "webserver_requirements"
          arn (envEnabled env "webserver"))) ∧
    (findVal out.loggers "airflow.task" =
      match env (arnKey "task") with
      | none => findVal fw.default_config.loggers "airflow.task"
      | some _ => (findVal fw.default_config.loggers "airflow.task").map
          (fun d =>
            dictUpdate d [("level", PyValue.s (envLevel env "task"))])) ∧
    (findVal out.loggers "airflow.processor_manager" =
      match env (arnKey "dag_processing") with
      | none => findVal fw.default_config.loggers "airflow.processor_manager"
      | some _ => some (processor_manager_logger_entry
          (envLevel env "dag_processing"))) ∧
    (findVal out.loggers "airflow.processor" =
      match env (arnKey "dag_processing") with
      | none => findVal fw.default_config.loggers "airflow.processor"
      | some _ => some (processor_logger_entry
          (envLevel env "dag_processing"))) ∧
    (findVal out.loggers "mwaa.worker" =
      match env (arnKey "worker") with
      | none => findVal fw.default_config.loggers "mwaa.worker"
      | some _ => some (subprocess_logger_entry "worker"
          (envLevel env "worker"))) ∧
    (findVal out.loggers "mwaa.worker_requirements" =
      match env (arnKey "worker") with
      | none => findVal fw.default_config.loggers "mwaa.worker_requirements"
      | some _ => some (subprocess_logger_entry "worker_requirements"
          (envLevel env "worker"))) ∧
    (findVal out.loggers "mwaa.scheduler" =
      match env (arnKey "scheduler") with
      | none => findVal fw.default_config.loggers "mwaa.scheduler"
      | some _ => some (subprocess_logger_entry "scheduler"
          (envLevel env "scheduler"))) ∧
    (findVal out.loggers "mwaa.scheduler_requirements" =
      match env (arnKey "scheduler") with
      | none =>
          findVal fw.default_config.loggers "mwaa.scheduler_requirements"
      | some _ => some (subprocess_logger_entry "scheduler_requirements"
          (envLevel env "scheduler"))) ∧
    (findVal out.loggers "mwaa.webserver" =
      match env (arnKey "webserver") with
      | none => findVal fw.default_config.loggers "mwaa.webserver"
      | some _ => some (subprocess_logger_entry "webserver"
          (envLevel env "webserver"))) ∧
    (findVal out.loggers "mwaa.webserver_requirements" =
      match env (arnKey "webserver") with
      | none =>
          findVal fw.default_config.loggers "mwaa.webserver_requirements"
      | some _ => some (subprocess_logger_entry "webserver_requirements"
          (envLevel env "webserver"))) :=
  ⟨configure_handlers_at_task fw env out h,
   configure_handlers_at_processor_manager fw env out h,
   configure_handlers_at_processor fw env out h,
   configure_handlers_at_mwaa_worker fw env out h,
   configure_handlers_at_mwaa_worker_requirements fw env out h,
   configure_handlers_at_mwaa_scheduler fw env out h,
   configure_handlers_at_mwaa_scheduler_requirements fw env out h,
   configure_handlers_at_mwaa_webserver fw env out h,
   configure_handlers_at_mwaa_webserver_requirements fw env out h,
   configure_loggers_at_airflow_task fw env out h,
   configure_loggers_at_airflow_processor_manager fw env out h,
   configure_loggers_at_airflow_processor fw env out h,
   configure_loggers_at_mwaa_worker fw env out h,
   configure_loggers_at_mwaa_worker_requirements fw env out h,
   configure_loggers_at_mwaa_scheduler fw env out h,
   configure_loggers_at_mwaa_scheduler_requirements fw env out h,
   configure_loggers_at_mwaa_webserver fw env out h,
   configure_loggers_at_mwaa_webserver_requirements fw env out h⟩

/-- Claim C1 witness: the amended theorem applied to the fully configured
concrete environment, its hypothesis discharged by evaluation. -/
theorem C1_log_source_registration_witness :
    findVal (out_of env_all).handlers "task" =
      match env_all (arnKey "task") with
      | none => findVal airflow_defaults.default_config.handlers "task"
      | some arn =>
          some (task_handler_entry airflow_defaults arn
            (envEnabled env_all "task")) :=
  (C1_log_source_registration airflow_defaults env_all (out_of env_all)
    rfl).1

/-- Claim C6: `_configure` is the fixed sequence — task logging, then
DAG-processing logging, then for worker, scheduler and webserver (in that
order) the component followed by its `_requirements` variant — applied once
to the mapping initialised from the framework default; nothing else
produces the configuration. -/
theorem C6_fixed_sequence (fw : FrameworkDefaults) (env : Env) :
    configure fw env =
      match configure_task_logging fw env fw.default_config with
      | .error e => .error e
      | .ok cfg0 =>
        .ok (configure_subprocesses_logging "webserver_requirements"
          (get_mwaa_logging_env_vars env "webserver")
          (configure_subprocesses_logging "webserver"
            (get_mwaa_logging_env_vars env "webserver")
            (configure_subprocesses_logging "scheduler_requirements"
              (get_mwaa_logging_env_vars env "scheduler")
              (configure_subprocesses_logging "scheduler"
                (get_mwaa_logging_env_vars env "scheduler")
                (configure_subprocesses_logging "worker_requirements"
                  (get_mwaa_logging_env_vars env "worker")
                  (configure_subprocesses_logging "worker"
                    (get_mwaa_logging_env_vars env "worker")
                    (configure_dag_processing_logging fw env cfg0))))))) :=
  configure_eq fw env

/-- Claim C7: the configuration is a function of the fifteen
`MWAA__LOGGING__AIRFLOW_*` variables alone — two environments agreeing on
them produce identical configurations, whatever else differs. -/
theorem C7_environment_determinism (fw : FrameworkDefaults)
    (env1 env2 : Env)
    (hagree : ∀ k ∈ mwaa_logging_keys, env1 k = env2 k) :
    configure fw env1 = configure fw env2 := by
  have hKeys : ∀ s ∈ (["task", "dag_processing", "worker", "scheduler",
      "webserver"] : List String),
      get_mwaa_logging_env_vars env1 s = get_mwaa_logging_env_vars env2 s := by
    intro s hs
    unfold get_mwaa_logging_env_vars
    rw [hagree (arnKey s)
        (by unfold mwaa_logging_keys
            exact List.mem_flatMap.mpr ⟨s, hs, by simp⟩),
      hagree (levelKey s)
        (by unfold mwaa_logging_keys
            exact List.mem_flatMap.mpr ⟨s, hs, by simp⟩),
      hagree (enabledKey s)
        (by unfold mwaa_logging_keys
            exact List.mem_flatMap.mpr ⟨s, hs, by simp⟩)]
  have ht := hKeys "task" (by simp)
  have hdp := hKeys "dag_processing" (by simp)
  have hw := hKeys "worker" (by simp)
  have hsc := hKeys "scheduler" (by simp)
  have hwb := hKeys "webserver" (by simp)
  rw [configure_eq fw env1, configure_eq fw env2]
  simp only [configure_task_logging_congr fw env1 env2 ht, hw, hsc, hwb,
    configure_dag_processing_logging_congr fw env1 env2 hdp]

/-- Claim C2 is false as stated: the set of handler names in the mapping is
not the same for every assignment of the environment variables — an
environment with the dag_processing ARN set yields a `processor_manager`
handler name that the empty environment does not. -/
theorem C2_counterexample :
    (configure airflow_defaults env_dag_only).toOption.map
        (fun c => c.handlers.map Prod.fst) ≠
      (configure airflow_defaults env_empty).toOption.map
        (fun c => c.handlers.map Prod.fst) := by
  decide

/-- Claim C2 (amended): the sets of handler and logger names in the built
mapping depend only on which `*_LOG_GROUP_ARN` variables are present; for
every assignment with the same presence pattern the same names are produced,
and only the parameter values inside the entries depend on the remaining
environment. -/
theorem C2_name_set_by_presence (env : Env) (out : LoggingConfig)
    (h : configure airflow_defaults env = .ok out) :
    out.handlers.map Prod.fst =
      ["console", "task", "processor", "processor_to_stdout"] ++
      (if (env (arnKey "dag_processing")).isSome then ["processor_manager"]
        else []) ++
      (if (env (arnKey "worker")).isSome then
        ["mwaa_worker", "mwaa_worker_requirements"] else []) ++
      (if (env (arnKey "scheduler")).isSome then
        ["mwaa_scheduler", "mwaa_scheduler_requirements"] else []) ++
      (if (env (arnKey "webserver")).isSome then
        ["mwaa_webserver", "mwaa_webserver_requirements"] else []) ∧
    out.loggers.map Prod.fst =
      ["airflow.processor", "airflow.task", "flask_appbuilder"] ++
      (if (env (arnKey "dag_processing")).isSome then
        ["airflow.processor_manager"] else []) ++
      (if (env (arnKey "worker")).isSome then
        ["mwaa.worker", "mwaa.worker_requirements"] else []) ++
      (if (env (arnKey "scheduler")).isSome then
        ["mwaa.scheduler", "mwaa.scheduler_requirements"] else []) ++
      (if (env (arnKey "webserver")).isSome then
        ["mwaa.webserver", "mwaa.webserver_requirements"] else []) := by
  obtain ⟨cfg0, hc0, rfl⟩ := configure_cases airflow_defaults env out h
  rcases hT : env (arnKey "task") with _ | aT
  · rw [configure_task_logging_none airflow_defaults env _ hT] at hc0
    obtain rfl := Except.ok.inj hc0
    rcases hD : env (arnKey "dag_processing") with _ | aD <;>
      rcases hW : env (arnKey "worker") with _ | aW <;>
      rcases hS : env (arnKey "scheduler") with _ | aS <;>
      rcases hB : env (arnKey "webserver") with _ | aB <;>
      simp [configure_dag_processing_logging, configure_subprocesses_logging,
        get_mwaa_logging_env_vars, hD, hW, hS, hB, insertVal,
        airflow_defaults]
  · obtain ⟨d, hd, rfl⟩ :=
      configure_task_logging_some_inv airflow_defaults env _ cfg0 aT hT hc0
    rcases hD : env (arnKey "dag_processing") with _ | aD <;>
      rcases hW : env (arnKey "worker") with _ | aW <;>
      rcases hS : env (arnKey "scheduler") with _ | aS <;>
      rcases hB : env (arnKey "webserver") with _ | aB <;>
      simp [configure_dag_processing_logging, configure_subprocesses_logging,
        get_mwaa_logging_env_vars, hD, hW, hS, hB, insertVal,
        airflow_defaults]

/-- Claim C2 witness: the amended theorem applied to the fully configured
concrete environment, its hypothesis discharged by evaluation. -/
theorem C2_name_set_by_presence_witness :
    (out_of env_all).handlers.map Prod.fst =
      ["console", "task", "processor", "processor_to_stdout"] ++
      (if (env_all (arnKey "dag_processing")).isSome then
        ["processor_manager"] else []) ++
      (if (env_all (arnKey "worker")).isSome then
        ["mwaa_worker", "mwaa_worker_requirements"] else []) ++
      (if (env_all (arnKey "scheduler")).isSome then
        ["mwaa_scheduler", "mwaa_scheduler_requirements"] else []) ++
      (if (env_all (arnKey "webserver")).isSome then
        ["mwaa_webserver", "mwaa_webserver_requirements"] else []) :=
  (C2_name_set_by_presence env_all (out_of env_all) rfl).1

/-- Claim C3: every handler entry this module writes — the task handler, the
two dag-processing handlers and every subprocess handler — carries a class
reference, a formatter name, the log group ARN destination and an enablement
flag. -/
theorem C3_handler_entry_fields (fw : FrameworkDefaults) (env : Env)
    (cfg out : LoggingConfig) (arn : String) :
    (env (arnKey "task") = some arn →
      configure_task_logging fw env cfg = .ok out →
      ∃ e, findVal out.handlers "task" = some e ∧
        findVal e "class" = some (PyValue.s (qualified_name "TaskLogHandler")) ∧
        findVal e "formatter" = some (PyValue.s "airflow") ∧
        findVal e "log_group_arn" = some (PyValue.s arn) ∧
        findVal e "enabled" = some (PyValue.b (envEnabled env "task"))) ∧
    (env (arnKey "dag_processing") = some arn →
      (∃ e, findVal (configure_dag_processing_logging fw env cfg).handlers
          "processor_manager" = some e ∧
        findVal e "class" =
          some (PyValue.s (qualified_name "DagProcessorManagerLogHandler")) ∧
        findVal e "formatter" = some (PyValue.s "airflow") ∧
        findVal e "log_group_arn" = some (PyValue.s arn) ∧
        findVal e "enabled" =
          some (PyValue.b (envEnabled env "dag_processing"))) ∧
      (∃ e, findVal (configure_dag_processing_logging fw env cfg).handlers
          "processor" = some e ∧
        findVal e "class" =
          some (PyValue.s (qualified_name "DagProcessingLogHandler")) ∧
        findVal e "formatter" = some (PyValue.s "airflow") ∧
        findVal e "log_group_arn" = some (PyValue.s arn) ∧
        findVal e "enabled" =
          some (PyValue.b (envEnabled env "dag_processing")))) ∧
    (∀ subprocess_name log_level logging_enabled,
      ∃ e, findVal (configure_subprocesses_logging subprocess_name
          (some arn, log_level, logging_enabled) cfg).handlers
          ("mwaa_" ++ subprocess_name) = some e ∧
        findVal e "class" =
          some (PyValue.s (qualified_name "SubprocessLogHandler")) ∧
        findVal e "formatter" = some (PyValue.s "airflow") ∧
        findVal e "log_group_arn" = some (PyValue.s arn) ∧
        findVal e "enabled" = some (PyValue.b logging_enabled)) := by
  refine ⟨?_, ?_, ?_⟩
  · intro hA hok
    obtain ⟨d, hd, rfl⟩ :=
      configure_task_logging_some_inv fw env cfg out arn hA hok
    exact ⟨_, findVal_insertVal_self _ _ _, rfl, rfl, rfl, rfl⟩
  · intro hA
    rw [configure_dag_processing_logging_some fw env cfg arn hA]
    constructor
    · have hfind : findVal (insertVal
          (insertVal cfg.handlers "processor_manager"
            (processor_manager_handler_entry fw arn
              (envEnabled env "dag_processing")))
          "processor"
          (processor_handler_entry fw arn (envEnabled env "dag_processing")))
          "processor_manager" =
          some (processor_manager_handler_entry fw arn
            (envEnabled env "dag_processing")) := by
        rw [findVal_insertVal_ne _ _ _ _ (by decide)]
        exact findVal_insertVal_self _ _ _
      exact ⟨_, hfind, rfl, rfl, rfl, rfl⟩
    · exact ⟨_, findVal_insertVal_self _ _ _, rfl, rfl, rfl, rfl⟩
  · intro subprocess_name log_level logging_enabled
    rw [configure_subprocesses_logging_some]
    exact ⟨_, findVal_insertVal_self _ _ _, rfl, rfl, rfl, rfl⟩

/-- Claim C3 witness: the task part of the theorem applied to the concrete
fully configured environment, hypotheses discharged by evaluation. -/
theorem C3_handler_entry_fields_witness :
    ∃ e, findVal ((configure_task_logging airflow_defaults env_all
        airflow_defaults.default_config).toOption.getD ⟨[], []⟩).handlers
        "task" = some e ∧
      findVal e "class" =
        some (PyValue.s (qualified_name "TaskLogHandler")) ∧
      findVal e "formatter" = some (PyValue.s "airflow") ∧
      findVal e "log_group_arn" = some (PyValue.s "arn:aws:logs:::task") ∧
      findVal e "enabled" = some (PyValue.b (envEnabled env_all "task")) :=
  (C3_handler_entry_fields airflow_defaults env_all
    airflow_defaults.default_config _ "arn:aws:logs:::task").1 rfl rfl

/-- Claim C4: every logger entry this module writes carries an
attached-handlers list, a severity level and a propagation flag; for the
task logger, which is updated in place, the handlers list and propagation
flag are the framework default's and the level is the environment's. -/
theorem C4_logger_entry_fields (fw : FrameworkDefaults) (env : Env)
    (cfg out : LoggingConfig) (arn : String) (d : PyDict) :
    (env (arnKey "task") = some arn →
      findVal cfg.loggers "airflow.task" = some d →
      (findVal d "handlers").isSome = true →
      (findVal d "propagate").isSome = true →
      configure_task_logging fw env cfg = .ok out →
      ∃ e, findVal out.loggers "airflow.task" = some e ∧
        findVal e "handlers" = findVal d "handlers" ∧
        findVal e "level" = some (PyValue.s (envLevel env "task")) ∧
        findVal e "propagate" = findVal d "propagate" ∧
        (findVal e "handlers").isSome = true ∧
        (findVal e "propagate").isSome = true) ∧
    (env (arnKey "dag_processing") = some arn →
      (∃ e, findVal (configure_dag_processing_logging fw env cfg).loggers
          "airflow.processor_manager" = some e ∧
        findVal e "handlers" = some (PyValue.strs ["processor_manager"]) ∧
        findVal e "level" =
          some (PyValue.s (envLevel env "dag_processing")) ∧
        findVal e "propagate" = some (PyValue.b false)) ∧
      (∃ e, findVal (configure_dag_processing_logging fw env cfg).loggers
          "airflow.processor" = some e ∧
        findVal e "handlers" = some (PyValue.strs ["processor"]) ∧
        findVal e "level" =
          some (PyValue.s (envLevel env "dag_processing")) ∧
        findVal e "propagate" = some (PyValue.b false))) ∧
    (∀ subprocess_name log_level logging_enabled,
      ∃ e, findVal (configure_subprocesses_logging subprocess_name
          (some arn, log_level, logging_enabled) cfg).loggers
          ("mwaa." ++ subprocess_name) = some e ∧
        findVal e "handlers" =
          some (PyValue.strs ["mwaa_" ++ subprocess_name]) ∧
        findVal e "level" = some (PyValue.s log_level) ∧
        findVal e "propagate" = some (PyValue.b false)) := by
  refine ⟨?_, ?_, ?_⟩
  · intro hA hd hh hp hok
    obtain ⟨d2, hd2, rfl⟩ :=
      configure_task_logging_some_inv fw env cfg out arn hA hok
    rw [hd] at hd2
    obtain rfl := Option.some.inj hd2
    have hup : dictUpdate d [("level", PyValue.s (envLevel env "task"))] =
        insertVal d "level" (PyValue.s (envLevel env "task")) := rfl
    refine ⟨_, findVal_insertVal_self _ _ _, ?_, ?_, ?_, ?_, ?_⟩
    · rw [hup]
      exact findVal_insertVal_ne _ _ _ _ (by decide)
    · rw [hup]
      exact findVal_insertVal_self _ _ _
    · rw [hup]
      exact findVal_insertVal_ne _ _ _ _ (by decide)
    · rw [hup, findVal_insertVal_ne _ _ _ _ (by decide)]
      exact hh
    · rw [hup, findVal_insertVal_ne _ _ _ _ (by decide)]
      exact hp
  · intro hA
    rw [configure_dag_processing_logging_some fw env cfg arn hA]
    constructor
    · have hfind : findVal (insertVal
          (insertVal cfg.loggers "airflow.processor_manager"
            (processor_manager_logger_entry (envLevel env "dag_processing")))
          "airflow.processor"
          (processor_logger_entry (envLevel env "dag_processing")))
          "airflow.processor_manager" =
          some (processor_manager_logger_entry
            (envLevel env "dag_processing")) := by
        rw [findVal_insertVal_ne _ _ _ _ (by decide)]
        exact findVal_insertVal_self _ _ _
      exact ⟨_, hfind, rfl, rfl, rfl⟩
    · exact ⟨_, findVal_insertVal_self _ _ _, rfl, rfl, rfl⟩
  · intro subprocess_name log_level logging_enabled
    rw [configure_subprocesses_logging_some]
    exact ⟨_, findVal_insertVal_self _ _ _, rfl, rfl, rfl⟩

/-- Claim C4 witness: the task part of the theorem applied to the concrete
fully configured environment and the modelled framework default, hypotheses
discharged by evaluation. -/
theorem C4_logger_entry_fields_witness :
    ∃ e, findVal ((configure_task_logging airflow_defaults env_all
        airflow_defaults.default_config).toOption.getD ⟨[], []⟩).loggers
        "airflow.task" = some e ∧
      findVal e "handlers" =
        findVal [("handlers", PyValue.strs ["task"]),
          ("level", PyValue.s "INFO"), ("propagate", PyValue.b true),
          ("filters", PyValue.strs ["mask_secrets"])] "handlers" ∧
      findVal e "level" = some (PyValue.s (envLevel env_all "task")) ∧
      findVal e "propagate" =
        findVal [("handlers", PyValue.strs ["task"]),
          ("level", PyValue.s "INFO"), ("propagate", PyValue.b true),
          ("filters", PyValue.strs ["mask_secrets"])] "propagate" ∧
      (findVal e "handlers").isSome = true ∧
      (findVal e "propagate").isSome = true :=
  (C4_logger_entry_fields airflow_defaults env_all
    airflow_defaults.default_config _ "arn:aws:logs:::task"
    [("handlers", PyValue.strs ["task"]), ("level", PyValue.s "INFO"),
     ("propagate", PyValue.b true),
     ("filters", PyValue.strs ["mask_secrets"])]).1 rfl rfl rfl rfl rfl

/-- Claim C5 is false as stated: with worker logging enabled and
`MWAA__LOGGING__AIRFLOW_WORKER_REQUIREMENTS_LOGS_ENABLED` absent, the
`worker_requirements` source should be decided as not enabled by the claim,
yet its handler entry stores an enablement flag of true (the parent
component's flag). -/
theorem C5_counterexample :
    env_worker_enabled
        "MWAA__LOGGING__AIRFLOW_WORKER_REQUIREMENTS_LOGS_ENABLED" = none ∧
    configure airflow_defaults env_worker_enabled =
      .ok (out_of env_worker_enabled) ∧
    (findVal (out_of env_worker_enabled).handlers
        "mwaa_worker_requirements").map (fun e => findVal e "enabled") =
      some (some (PyValue.b true)) :=
  ⟨rfl, rfl, rfl⟩

/-- Claim C5 (amended): the enablement decision for a source is true iff
that source's `MWAA__LOGGING__AIRFLOW_<SOURCE>_LOGS_ENABLED` variable is
present and equals "true" case-insensitively, defaulting to not enabled when
absent; the flag stored in each handler entry is the decision of its
governing source — the source itself for task, dag_processing, worker,
scheduler and webserver, and the parent component for the `_requirements`
handler entries. -/
theorem C5_enablement_flag (fw : FrameworkDefaults) (env : Env)
    (out : LoggingConfig) (h : configure fw env = .ok out) :
    (∀ source,
      (envEnabled env source = true ↔
        ∃ v, env (enabledKey source) = some v ∧ pyLower v = "true") ∧
      (env (enabledKey source) = none → envEnabled env source = false)) ∧
    (∀ arn, env (arnKey "task") = some arn →
      (findVal out.handlers "task").map (fun e => findVal e "enabled") =
        some (some (PyValue.b (envEnabled env "task")))) ∧
    (∀ arn, env (arnKey "dag_processing") = some arn →
      (findVal out.handlers "processor_manager").map
          (fun e => findVal e "enabled") =
        some (some (PyValue.b (envEnabled env "dag_processing")))) ∧
    (∀ arn, env (arnKey "dag_processing") = some arn →
      (findVal out.handlers "processor").map (fun e => findVal e "enabled") =
        some (some (PyValue.b (envEnabled env "dag_processing")))) ∧
    (∀ arn, env (arnKey "worker") = some arn →
      (findVal out.handlers "mwaa_worker").map
          (fun e => findVal e "enabled") =
        some (some (PyValue.b (envEnabled env "worker")))) ∧
    (∀ arn, env (arnKey "worker") = some arn →
      (findVal out.handlers "mwaa_worker_requirements").map
          (fun e => findVal e "enabled") =
        some (some (PyValue.b (envEnabled env "worker")))) ∧
    (∀ arn, env (arnKey "scheduler") = some arn →
      (findVal out.handlers "mwaa_scheduler").map
          (fun e => findVal e "enabled") =
        some (some (PyValue.b (envEnabled env "scheduler")))) ∧
    (∀ arn, env (arnKey "scheduler") = some arn →
      (findVal out.handlers "mwaa_scheduler_requirements").map
          (fun e => findVal e "enabled") =
        some (some (PyValue.b (envEnabled env "scheduler")))) ∧
    (∀ arn, env (arnKey "webserver") = some arn →
      (findVal out.handlers "mwaa_webserver").map
          (fun e => findVal e "enabled") =
        some (some (PyValue.b (envEnabled env "webserver")))) ∧
    (∀ arn, env (arnKey "webserver") = some arn →
      (findVal out.handlers "mwaa_webserver_requirements").map
          (fun e => findVal e "enabled") =
        some (some (PyValue.b (envEnabled env "webserver")))) := by
  have hval : ∀ source, envEnabled env source =
      (pyLower ((env (enabledKey source)).getD "false") == "true") :=
    fun _ => rfl
  refine ⟨?_, ?_, ?_, ?_, ?_, ?_, ?_, ?_, ?_, ?_⟩
  · intro source
    constructor
    · rcases he : env (enabledKey source) with _ | v
      · rw [hval source, he]
        rw [show (pyLower ((none : Option String).getD "false") == "true")
          = false from rfl]
        simp
      · rw [hval source, he]
        constructor
        · intro hx
          refine ⟨v, rfl, ?_⟩
          have hx2 : (pyLower v == "true") = true := hx
          rwa [beq_iff_eq] at hx2
        · rintro ⟨w, hw, hlow⟩
          have hvw : v = w := Option.some.inj hw
          show (pyLower v == "true") = true
          rw [beq_iff_eq, hvw]
          exact hlow
    · intro he
      rw [hval source, he]
      rfl
  · intro arn hA
    rw [configure_handlers_at_task fw env out h, hA]
    rfl
  · intro arn hA
    rw [configure_handlers_at_processor_manager fw env out h, hA]
    rfl
  · intro arn hA
    rw [configure_handlers_at_processor fw env out h, hA]
    rfl
  · intro arn hA
    rw [configure_handlers_at_mwaa_worker fw env out h, hA]
    rfl
  · intro arn hA
    rw [configure_handlers_at_mwaa_worker_requirements fw env out h, hA]
    rfl
  · intro arn hA
    rw [configure_handlers_at_mwaa_scheduler fw env out h, hA]
    rfl
  · intro arn hA
    rw [configure_handlers_at_mwaa_scheduler_requirements fw env out h, hA]
    rfl
  · intro arn hA
    rw [configure_handlers_at_mwaa_webserver fw env out h, hA]
    rfl
  · intro arn hA
    rw [configure_handlers_at_mwaa_webserver_requirements fw env out h, hA]
    rfl

/-- Claim C5 witness: the amended theorem applied to the concrete fully
configured environment — the worker_requirements handler entry stores the
worker source's enablement decision. -/
theorem C5_enablement_flag_witness :
    (findVal (out_of env_all).handlers "mwaa_worker_requirements").map
        (fun e => findVal e "enabled") =
      some (some (PyValue.b (envEnabled env_all "worker"))) :=
  (C5_enablement_flag airflow_defaults env_all (out_of env_all)
    rfl).2.2.2.2.2.1 "arn:aws:logs:::worker" rfl

/-- Claim C8: when the dag_processing ARN variable is present, exactly the
`processor_manager` and `processor` handler/logger pairs are registered by
the DAG-processing setup, both carrying the same log group ARN, the same
level and the same enablement flag drawn from the dag_processing
environment variables, and no other key of the mapping changes. -/
theorem C8_dag_processing_pairs (fw : FrameworkDefaults) (env : Env)
    (cfg : LoggingConfig) (arn : String)
    (hA : env (arnKey "dag_processing") = some arn) :
    findVal (configure_dag_processing_logging fw env cfg).handlers
        "processor_manager" =
      some (processor_manager_handler_entry fw arn
        (envEnabled env "dag_processing")) ∧
    findVal (configure_dag_processing_logging fw env cfg).handlers
        "processor" =
      some (processor_handler_entry fw arn
        (envEnabled env "dag_processing")) ∧
    findVal (configure_dag_processing_logging fw env cfg).loggers
        "airflow.processor_manager" =
      some (processor_manager_logger_entry
        (envLevel env "dag_processing")) ∧
    findVal (configure_dag_processing_logging fw env cfg).loggers
        "airflow.processor" =
      some (processor_logger_entry (envLevel env "dag_processing")) ∧
    (∀ k, k ≠ "processor_manager" → k ≠ "processor" →
      findVal (configure_dag_processing_logging fw env cfg).handlers k =
        findVal cfg.handlers k) ∧
    (∀ k, k ≠ "airflow.processor_manager" → k ≠ "airflow.processor" →
      findVal (configure_dag_processing_logging fw env cfg).loggers k =
        findVal cfg.loggers k) := by
  refine ⟨?_, ?_, ?_, ?_, ?_, ?_⟩
  · rw [configure_dag_processing_logging_some fw env cfg arn hA,
      findVal_insertVal_ne _ _ _ _ (by decide)]
    exact findVal_insertVal_self _ _ _
  · rw [configure_dag_processing_logging_some fw env cfg arn hA]
    exact findVal_insertVal_self _ _ _
  · rw [configure_dag_processing_logging_some fw env cfg arn hA,
      findVal_insertVal_ne _ _ _ _ (by decide)]
    exact findVal_insertVal_self _ _ _
  · rw [configure_dag_processing_logging_some fw env cfg arn hA]
    exact findVal_insertVal_self _ _ _
  · exact fun k h1 h2 =>
      configure_dag_processing_logging_handlers_frame fw env cfg k h1 h2
  · exact fun k h1 h2 =>
      configure_dag_processing_logging_loggers_frame fw env cfg k h1 h2

/-- Claim C8 witness: the theorem applied to the concrete fully configured
environment and the modelled framework default. -/
theorem C8_dag_processing_pairs_witness :
    findVal (configure_dag_processing_logging airflow_defaults env_all
        airflow_defaults.default_config).handlers "processor_manager" =
      some (processor_manager_handler_entry airflow_defaults
        "arn:aws:logs:::dag" (envEnabled env_all "dag_processing")) :=
  (C8_dag_processing_pairs airflow_defaults env_all
    airflow_defaults.default_config "arn:aws:logs:::dag" rfl).1

/-- Claim C9: for each of worker, scheduler and webserver, the component's
single set of environment variables drives both the `mwaa_<component>` and
`mwaa_<component>_requirements` handler/logger pairs: both receive the same
log group ARN, severity level and enablement flag, differing only in
handler name, logger name, stream-name prefix and subprocess name. -/
theorem C9_component_pairs (fw : FrameworkDefaults) (env : Env)
    (out : LoggingConfig) (h : configure fw env = .ok out) :
    (∀ arn, env (arnKey "worker") = some arn →
      findVal out.handlers "mwaa_worker" =
        some (subprocess_handler_entry "worker" arn
          (envEnabled env "worker")) ∧
      findVal out.handlers "mwaa_worker_requirements" =
        some (subprocess_handler_entry "worker_requirements" arn
          (envEnabled env "worker")) ∧
      findVal out.loggers "mwaa.worker" =
        some (subprocess_logger_entry "worker" (envLevel env "worker")) ∧
      findVal out.loggers "mwaa.worker_requirements" =
        some (subprocess_logger_entry "worker_requirements"
          (envLevel env "worker"))) ∧
    (∀ arn, env (arnKey "scheduler") = some arn →
      findVal out.handlers "mwaa_scheduler" =
        some (subprocess_handler_entry "scheduler" arn
          (envEnabled env "scheduler")) ∧
      findVal out.handlers "mwaa_scheduler_requirements" =
        some (subprocess_handler_entry "scheduler_requirements" arn
          (envEnabled env "scheduler")) ∧
      findVal out.loggers "mwaa.scheduler" =
        some (subprocess_logger_entry "scheduler"
          (envLevel env "scheduler")) ∧
      findVal out.loggers "mwaa.scheduler_requirements" =
        some (subprocess_logger_entry "scheduler_requirements"
          (envLevel env "scheduler"))) ∧
    (∀ arn, env (arnKey "webserver") = some arn →
      findVal out.handlers "mwaa_webserver" =
        some (subprocess_handler_entry "webserver" arn
          (envEnabled env "webserver")) ∧
      findVal out.handlers "mwaa_webserver_requirements" =
        some (subprocess_handler_entry "webserver_requirements" arn
          (envEnabled env "webserver")) ∧
      findVal out.loggers "mwaa.webserver" =
        some (subprocess_logger_entry "webserver"
          (envLevel env "webserver")) ∧
      findVal out.loggers "mwaa.webserver_requirements" =
        some (subprocess_logger_entry "webserver_requirements"
          (envLevel env "webserver"))) := by
  refine ⟨?_, ?_, ?_⟩
  · intro arn hA
    refine ⟨?_, ?_, ?_, ?_⟩
    · rw [configure_handlers_at_mwaa_worker fw env out h, hA]
    · rw [configure_handlers_at_mwaa_worker_requirements fw env out h, hA]
    · rw [configure_loggers_at_mwaa_worker fw env out h, hA]
    · rw [configure_loggers_at_mwaa_worker_requirements fw env out h, hA]
  · intro arn hA
    refine ⟨?_, ?_, ?_, ?_⟩
    · rw [configure_handlers_at_mwaa_scheduler fw env out h, hA]
    · rw [configure_handlers_at_mwaa_scheduler_requirements fw env out h, hA]
    · rw [configure_loggers_at_mwaa_scheduler fw env out h, hA]
    · rw [configure_loggers_at_mwaa_scheduler_requirements fw env out h, hA]
  · intro arn hA
    refine ⟨?_, ?_, ?_, ?_⟩
    · rw [configure_handlers_at_mwaa_webserver fw env out h, hA]
    · rw [configure_handlers_at_mwaa_webserver_requirements fw env out h, hA]
    · rw [configure_loggers_at_mwaa_webserver fw env out h, hA]
    · rw [configure_loggers_at_mwaa_webserver_requirements fw env out h, hA]

/-- Claim C9 witness: the theorem applied to the concrete fully configured
environment, hypotheses discharged by evaluation. -/
theorem C9_component_pairs_witness :
    findVal (out_of env_all).handlers "mwaa_worker" =
      some (subprocess_handler_entry "worker" "arn:aws:logs:::worker"
        (envEnabled env_all "worker")) :=
  ((C9_component_pairs airflow_defaults env_all (out_of env_all) rfl).1
    "arn:aws:logs:::worker" rfl).1

/-- Claim C10: every logger entry newly created by this module — the two
DAG-processing loggers and every `mwaa.<subprocess>` logger — has its
propagation flag set to false and attaches exactly the one handler created
for it in the same setup call. -/
theorem C10_fresh_logger_invariants (fw : FrameworkDefaults) (env : Env)
    (cfg : LoggingConfig) (arn : String) :
    (env (arnKey "dag_processing") = some arn →
      (findVal (configure_dag_processing_logging fw env cfg).loggers
          "airflow.processor_manager" =
        some (processor_manager_logger_entry
          (envLevel env "dag_processing")) ∧
       findVal (configure_dag_processing_logging fw env cfg).handlers
          "processor_manager" =
        some (processor_manager_handler_entry fw arn
          (envEnabled env "dag_processing")) ∧
       findVal (processor_manager_logger_entry
          (envLevel env "dag_processing")) "propagate" =
        some (PyValue.b false) ∧
       findVal (processor_manager_logger_entry
          (envLevel env "dag_processing")) "handlers" =
        some (PyValue.strs ["processor_manager"])) ∧
      (findVal (configure_dag_processing_logging fw env cfg).loggers
          "airflow.processor" =
        some (processor_logger_entry (envLevel env "dag_processing")) ∧
       findVal (configure_dag_processing_logging fw env cfg).handlers
          "processor" =
        some (processor_handler_entry fw arn
          (envEnabled env "dag_processing")) ∧
       findVal (processor_logger_entry (envLevel env "dag_processing"))
          "propagate" = some (PyValue.b false) ∧
       findVal (processor_logger_entry (envLevel env "dag_processing"))
          "handlers" = some (PyValue.strs ["processor"]))) ∧
    (∀ subprocess_name log_level logging_enabled cfg2,
      findVal (configure_subprocesses_logging subprocess_name
          (some arn, log_level, logging_enabled) cfg2).loggers
          ("mwaa." ++ subprocess_name) =
        some (subprocess_logger_entry subprocess_name log_level) ∧
      findVal (configure_subprocesses_logging subprocess_name
          (some arn, log_level, logging_enabled) cfg2).handlers
          ("mwaa_" ++ subprocess_name) =
        some (subprocess_handler_entry subprocess_name arn
          logging_enabled) ∧
      findVal (subprocess_logger_entry subprocess_name log_level)
          "propagate" = some (PyValue.b false) ∧
      findVal (subprocess_logger_entry subprocess_name log_level)
          "handlers" = some (PyValue.strs ["mwaa_" ++ subprocess_name])) := by
  constructor
  · intro hA
    constructor
    · refine ⟨?_, ?_, rfl, rfl⟩
      · rw [configure_dag_processing_logging_some fw env cfg arn hA,
          findVal_insertVal_ne _ _ _ _ (by decide)]
        exact findVal_insertVal_self _ _ _
      · rw [configure_dag_processing_logging_some fw env cfg arn hA,
          findVal_insertVal_ne _ _ _ _ (by decide)]
        exact findVal_insertVal_self _ _ _
    · refine ⟨?_, ?_, rfl, rfl⟩
      · rw [configure_dag_processing_logging_some fw env cfg arn hA]
        exact findVal_insertVal_self _ _ _
      · rw [configure_dag_processing_logging_some fw env cfg arn hA]
        exact findVal_insertVal_self _ _ _
  · intro subprocess_name log_level logging_enabled cfg2
    refine ⟨?_, ?_, rfl, rfl⟩
    · rw [configure_subprocesses_logging_some]
      exact findVal_insertVal_self _ _ _
    · rw [configure_subprocesses_logging_some]
      exact findVal_insertVal_self _ _ _

/-- Claim C10 witness: the DAG-processing part of the theorem applied to the
concrete fully configured environment. -/
theorem C10_fresh_logger_invariants_witness :
    findVal (configure_dag_processing_logging airflow_defaults env_all
        airflow_defaults.default_config).loggers "airflow.processor_manager" =
      some (processor_manager_logger_entry
        (envLevel env_all "dag_processing")) :=
  (((C10_fresh_logger_invariants airflow_defaults env_all
    airflow_defaults.default_config "arn:aws:logs:::dag").1 rfl).1).1

/-- Claim C7 witness: two concrete environments differing only on variables
the module never reads (including the `*_REQUIREMENTS` families) yield the
same configuration. -/
theorem C7_environment_determinism_witness :
    configure airflow_defaults env_all =
      configure airflow_defaults env_all_noise :=
  C7_environment_determinism airflow_defaults env_all env_all_noise
    (by decide)

end Mwaa
